import Mathlib

/-!
# Verification of the order-validation workflow

Shallow embedding of the order-validation agent: the catalog lookup tables and
the three validation rules from `src/tools/validation_tools.py`, and the
LangGraph workflow from `src/agents/order_validator.py` (nodes, conditional
routing, terminal approve/reject handling, and the top-level entry point).

Currency amounts are modelled as exact rationals (`ℚ`), quantities as `Int`
(Python integers may be non-positive), and the Python dictionaries as
structures.  The `@tool`/`invoke` plumbing is incidental and the rules are
called directly.  The top-level `try/except` boundary is modelled by running
the workflow through a fallible `Except String` runner.
-/

namespace OrderValidation

/-- A customer record of `MOCK_CUSTOMERS`. -/
structure Customer where
  id : String
  name : String
  email : String
  status : String
  credit_limit : ℚ
  current_balance : ℚ
  deriving DecidableEq, Repr

/-- A product record of `MOCK_PRODUCTS`. -/
structure Product where
  id : String
  name : String
  price : ℚ
  stock : Int
  category : String
  deriving DecidableEq, Repr

/-- One order line of the input: `product_id`, `quantity`, optional
caller-asserted `unit_price`. -/
structure Item where
  product_id : String
  quantity : Int
  unit_price : Option ℚ
  deriving DecidableEq, Repr

/-- The `MOCK_CUSTOMERS` dictionary, as an association list. -/
def MOCK_CUSTOMERS : List (String × Customer) :=
  [("CUST001", ⟨"CUST001", "Acme Corporation", "contact@acme.com", "active", 10000, 2000⟩),
   ("CUST002", ⟨"CUST002", "TechStart Inc", "info@techstart.com", "active", 5000, 4500⟩),
   ("CUST003", ⟨"CUST003", "Global Solutions", "sales@globalsolutions.com", "inactive", 15000, 0⟩),
   ("CUST004", ⟨"CUST004", "Innovation Labs", "hello@innovationlabs.com", "active", 8000, 1000⟩),
   ("CUST005", ⟨"CUST005", "Enterprise Systems", "contact@enterprise.com", "active", 20000, 15000⟩)]

/-- The `MOCK_PRODUCTS` dictionary, as an association list. -/
def MOCK_PRODUCTS : List (String × Product) :=
  [("PROD001", ⟨"PROD001", "Laptop Pro 15", 1200, 50, "electronics"⟩),
   ("PROD002", ⟨"PROD002", "Wireless Mouse", 25, 200, "accessories"⟩),
   ("PROD003", ⟨"PROD003", "USB-C Hub", 45, 100, "accessories"⟩),
   ("PROD004", ⟨"PROD004", "Monitor 27 inch", 350, 30, "electronics"⟩),
   ("PROD005", ⟨"PROD005", "Mechanical Keyboard", 120, 0, "accessories"⟩),
   ("PROD006", ⟨"PROD006", "Webcam HD", 80, 75, "electronics"⟩)]

/-- `MOCK_CUSTOMERS.get(id)`. -/
def findCustomer (customer_id : String) : Option Customer :=
  (MOCK_CUSTOMERS.lookup customer_id)

/-- `MOCK_PRODUCTS.get(id)`. -/
def findProduct (product_id : String) : Option Product :=
  (MOCK_PRODUCTS.lookup product_id)

/-- Two-decimal currency rendering, standing in for Python `f"${x:.2f}"`
string formatting in messages. -/
def money (q : ℚ) : String :=
  let cents : Int := (q * 100).floor
  let a := cents.natAbs
  (if cents < 0 then "$-" else "$") ++ toString (a / 100) ++ "." ++
    (if a % 100 < 10 then "0" else "") ++ toString (a % 100)

/-- Result dictionary of `validate_customer_exists`. -/
structure CustomerValidation where
  valid : Bool
  exists_ : Bool
  active : Bool
  customer_data : Option Customer
  message : String
  deriving DecidableEq, Repr

/-- Result dictionary of `check_customer_credit`. -/
structure CreditValidation where
  has_credit : Bool
  credit_limit : ℚ
  current_balance : ℚ
  available_credit : ℚ
  required_amount : ℚ
  message : String
  deriving DecidableEq, Repr

/-- An entry of `validated_items` in `validate_order_items`. -/
structure ValidatedItem where
  product_id : String
  product_name : String
  quantity : Int
  unit_price : ℚ
  item_total : ℚ
  category : String
  deriving DecidableEq, Repr

/-- An entry of `invalid_items` in `validate_order_items`; the optional
fields are present only for the failure kinds that set them. -/
structure InvalidItem where
  product_id : String
  quantity : Int
  available_stock : Option Int
  provided_price : Option ℚ
  actual_price : Option ℚ
  reason : String
  deriving DecidableEq, Repr

/-- Result dictionary of `validate_order_items`. -/
structure ItemsValidation where
  valid : Bool
  total_amount : ℚ
  validated_items : List ValidatedItem
  invalid_items : List InvalidItem
  message : String
  deriving DecidableEq, Repr

/-- `validate_customer_exists(customer_id)`: empty id, unknown id, inactive
and active customer cases. -/
def validate_customer_exists (customer_id : String) : CustomerValidation :=
  if customer_id = "" then
    ⟨false, false, false, none, "ID de cliente no proporcionado"⟩
  else
    match findCustomer customer_id with
    | none =>
      ⟨false, false, false, none, "Cliente " ++ customer_id ++ " no existe en el sistema"⟩
    | some customer =>
      if customer.status = "active" then
        ⟨true, true, true, some customer, "Cliente " ++ customer_id ++ " válido y activo"⟩
      else
        ⟨false, true, false, some customer,
          "Cliente " ++ customer_id ++ " existe pero está inactivo"⟩

/-- `check_customer_credit(customer_id, order_amount)`. -/
def check_customer_credit (customer_id : String) (order_amount : ℚ) : CreditValidation :=
  match findCustomer customer_id with
  | none =>
    ⟨false, 0, 0, 0, order_amount, "Cliente " ++ customer_id ++ " no encontrado"⟩
  | some customer =>
    let credit_limit := customer.credit_limit
    let current_balance := customer.current_balance
    let available_credit := credit_limit - current_balance
    if available_credit ≥ order_amount then
      ⟨true, credit_limit, current_balance, available_credit, order_amount,
        "Crédito suficiente. Disponible: " ++ money available_credit ++
          ", Requerido: " ++ money order_amount⟩
    else
      let deficit := order_amount - available_credit
      ⟨false, credit_limit, current_balance, available_credit, order_amount,
        "Crédito insuficiente. Disponible: " ++ money available_credit ++
          ", Requerido: " ++ money order_amount ++ ", Falta: " ++ money deficit⟩

/-- The per-line body of the `for` loop of `validate_order_items`: the four
checks in source order (product exists, quantity > 0, quantity ≤ stock,
asserted price within 0.01), first failing check recorded, otherwise a
validated line with `item_total = catalog price × quantity`. -/
def classifyLine (item : Item) : Sum ValidatedItem InvalidItem :=
  match findProduct item.product_id with
  | none =>
    .inr ⟨item.product_id, item.quantity, none, none, none,
      "Producto " ++ item.product_id ++ " no existe en el catálogo"⟩
  | some product =>
    if item.quantity ≤ 0 then
      .inr ⟨item.product_id, item.quantity, none, none, none,
        "Cantidad debe ser mayor a 0"⟩
    else
      let available_stock := product.stock
      if available_stock < item.quantity then
        .inr ⟨item.product_id, item.quantity, some available_stock, none, none,
          "Stock insuficiente. Solicitado: " ++ toString item.quantity ++
            ", Disponible: " ++ toString available_stock⟩
      else
        let actual_price := product.price
        match item.unit_price with
        | some provided_price =>
          if |provided_price - actual_price| > 0.01 then
            .inr ⟨item.product_id, item.quantity, none, some provided_price, some actual_price,
              "Precio incorrecto. Proporcionado: " ++ money provided_price ++
                ", Actual: " ++ money actual_price⟩
          else
            .inl ⟨item.product_id, product.name, item.quantity, actual_price,
              actual_price * (item.quantity : ℚ), product.category⟩
        | none =>
          .inl ⟨item.product_id, product.name, item.quantity, actual_price,
            actual_price * (item.quantity : ℚ), product.category⟩

/-- The `for` loop of `validate_order_items`: accumulates the validated
lines, invalid lines and running total, in input order. -/
def processItems : List Item → List ValidatedItem × List InvalidItem × ℚ
  | [] => ([], [], 0)
  | item :: rest =>
    let r := processItems rest
    match classifyLine item with
    | .inl v => (v :: r.1, r.2.1, v.item_total + r.2.2)
    | .inr iv => (r.1, iv :: r.2.1, r.2.2)

/-- `validate_order_items(items)`: empty input is a terminal invalid verdict;
otherwise the loop runs and
`is_valid = len(invalid_items) == 0 and len(validated_items) > 0`. -/
def validate_order_items (items : List Item) : ItemsValidation :=
  if items = [] then
    ⟨false, 0, [], [], "No se proporcionaron items en la orden"⟩
  else
    let r := processItems items
    let validated_items := r.1
    let invalid_items := r.2.1
    let total_amount := r.2.2
    let is_valid := invalid_items.isEmpty && !validated_items.isEmpty
    let message :=
      if is_valid then
        "Todos los " ++ toString validated_items.length ++
          " items son válidos. Total: " ++ money total_amount
      else
        "Validación fallida: " ++ toString invalid_items.length ++
          " items inválidos de " ++ toString items.length ++ " totales"
    ⟨is_valid, total_amount, validated_items, invalid_items, message⟩

/-- The `summary` sub-dictionary of `validation_details`; `items_count` is
set only by the approval node and `error_count` only by the reject node. -/
structure Summary where
  order_id : String
  customer_id : String
  total_amount : ℚ
  items_count : Option Nat
  approved : Bool
  error_count : Option Nat
  deriving DecidableEq, Repr

/-- The `validation_details` dictionary assembled by the terminal nodes;
`none` in an `Option ValidationDetails` slot models the empty dict `{}`. -/
structure ValidationDetails where
  customer : Option CustomerValidation
  items : Option ItemsValidation
  credit : Option CreditValidation
  errors : Option (List String)
  warnings : Option (List String)
  summary : Summary
  deriving DecidableEq, Repr

/-- The `OrderState` TypedDict threaded through the workflow nodes.  The
three verdict slots start unset (`None`) and `validation_details` starts as
the empty dict (`none`). -/
structure OrderState where
  order_id : String
  customer_id : String
  items : List Item
  customer_validation : Option CustomerValidation
  items_validation : Option ItemsValidation
  credit_validation : Option CreditValidation
  status : String
  errors : List String
  warnings : List String
  total_amount : ℚ
  approved : Bool
  message : String
  validation_details : Option ValidationDetails
  deriving DecidableEq, Repr

/-- `parse_order`: structural validation of the order request.  Any
violation appends an error per violation and sets status `"error"`;
otherwise status `"validating"`.  (The `isinstance`/`len == 0` branches of
the source are unreachable for a typed item list: an empty list already
takes the falsy `not state.get("items")` branch.) -/
def parse_order (state : OrderState) : OrderState :=
  let errors :=
    (if state.order_id = "" then ["ID de orden no proporcionado"] else []) ++
    (if state.customer_id = "" then ["ID de cliente no proporcionado"] else []) ++
    (if state.items = [] then ["No se proporcionaron items en la orden"] else [])
  { state with
    errors := errors
    warnings := []
    status := if errors = [] then "validating" else "error"
    approved := false
    total_amount := 0
    validation_details := none
    message :=
      if errors = [] then "Orden parseada, iniciando validaciones"
      else "Errores en estructura de orden: " ++ String.intercalate "; " errors }

/-- `validate_customer_node`: runs the customer rule, stores the verdict,
and appends its message to the errors when invalid. -/
def validate_customer_node (state : OrderState) : OrderState :=
  let result := validate_customer_exists state.customer_id
  let state := { state with customer_validation := some result }
  if ¬ result.valid then
    { state with errors := state.errors ++ [result.message] }
  else
    state

/-- `validate_items_node`: runs the item rule, stores the verdict, copies
its `total_amount` into the state, and on an invalid verdict appends the
top-level message plus one error per invalid line. -/
def validate_items_node (state : OrderState) : OrderState :=
  let result := validate_order_items state.items
  let state := { state with
    items_validation := some result
    total_amount := result.total_amount }
  if ¬ result.valid then
    { state with
      errors := state.errors ++ [result.message] ++
        result.invalid_items.map (fun invalid_item =>
          "Item " ++ invalid_item.product_id ++ ": " ++ invalid_item.reason) }
  else
    state

/-- `check_credit_node`: runs the credit rule on the state's accumulated
`total_amount`, stores the verdict, and appends its message when
insufficient. -/
def check_credit_node (state : OrderState) : OrderState :=
  let result := check_customer_credit state.customer_id state.total_amount
  let state := { state with credit_validation := some result }
  if ¬ result.has_credit then
    { state with errors := state.errors ++ [result.message] }
  else
    state

/-- `process_order_node`: terminal approval node. -/
def process_order_node (state : OrderState) : OrderState :=
  { state with
    status := "approved"
    approved := true
    message := "Orden " ++ state.order_id ++ " aprobada exitosamente. Total: " ++
      money state.total_amount
    validation_details := some
      { customer := state.customer_validation
        items := state.items_validation
        credit := state.credit_validation
        errors := none
        warnings := none
        summary :=
          { order_id := state.order_id
            customer_id := state.customer_id
            total_amount := state.total_amount
            items_count := some ((state.items_validation.map
              (fun v => v.validated_items.length)).getD 0)
            approved := true
            error_count := none } } }

/-- `error_handler_node`: terminal reject node; unconditionally sets status
`"rejected"` and assembles whatever verdicts are present. -/
def error_handler_node (state : OrderState) : OrderState :=
  let error_count := state.errors.length
  { state with
    status := "rejected"
    approved := false
    message := "Orden " ++ state.order_id ++ " rechazada. " ++
      toString error_count ++ " error(es) encontrado(s)."
    validation_details := some
      { customer := state.customer_validation
        items := state.items_validation
        credit := state.credit_validation
        errors := some state.errors
        warnings := some state.warnings
        summary :=
          { order_id := state.order_id
            customer_id := state.customer_id
            total_amount := state.total_amount
            items_count := none
            approved := false
            error_count := some error_count } } }

/-- `should_continue_after_customer` routing callback. -/
def should_continue_after_customer (state : OrderState) : String :=
  let customer_valid := (state.customer_validation.map (fun v => v.valid)).getD false
  if customer_valid then "validate_items" else "error_handler"

/-- `should_continue_after_items` routing callback. -/
def should_continue_after_items (state : OrderState) : String :=
  let items_valid := (state.items_validation.map (fun v => v.valid)).getD false
  if items_valid then "check_credit" else "error_handler"

/-- `should_continue_after_credit` routing callback. -/
def should_continue_after_credit (state : OrderState) : String :=
  let has_credit := (state.credit_validation.map (fun v => v.has_credit)).getD false
  if has_credit then "process_order" else "error_handler"

/-- One run of the compiled graph of `create_order_validation_graph` from
the entry point to `END`, returning the final state together with the list
of node names visited, in order. -/
def runGraphTrace (s0 : OrderState) : OrderState × List String :=
  let s1 := parse_order s0
  if s1.status = "validating" then
    let s2 := validate_customer_node s1
    if should_continue_after_customer s2 = "validate_items" then
      let s3 := validate_items_node s2
      if should_continue_after_items s3 = "check_credit" then
        let s4 := check_credit_node s3
        if should_continue_after_credit s4 = "process_order" then
          (process_order_node s4,
            ["parse_order", "validate_customer", "validate_items", "check_credit",
              "process_order"])
        else
          (error_handler_node s4,
            ["parse_order", "validate_customer", "validate_items", "check_credit",
              "error_handler"])
      else
        (error_handler_node s3,
          ["parse_order", "validate_customer", "validate_items", "error_handler"])
    else
      (error_handler_node s2, ["parse_order", "validate_customer", "error_handler"])
  else
    (error_handler_node s1, ["parse_order", "error_handler"])

/-- The final state of one graph run. -/
def runGraph (s0 : OrderState) : OrderState :=
  (runGraphTrace s0).1

/-- The initial state built by `validate_order`. -/
def initialState (order_id customer_id : String) (items : List Item) : OrderState :=
  { order_id := order_id
    customer_id := customer_id
    items := items
    customer_validation := none
    items_validation := none
    credit_validation := none
    status := "pending"
    errors := []
    warnings := []
    total_amount := 0
    approved := false
    message := ""
    validation_details := none }

/-- The result dictionary returned by `validate_order`. -/
structure FinalResult where
  status : String
  approved : Bool
  message : String
  total_amount : ℚ
  errors : List String
  warnings : List String
  validation_details : Option ValidationDetails
  deriving DecidableEq, Repr

/-- `validate_order`'s body, parametrised by the graph runner so the
`try/except` boundary is visible: a runner failure (`Except.error`) is the
Python exception caught by the `except` clause and converted into the
synthetic error result. -/
def validate_order_core (run : OrderState → Except String OrderState)
    (order_id customer_id : String) (items : List Item) : FinalResult :=
  match run (initialState order_id customer_id items) with
  | .ok final_state =>
    { status := final_state.status
      approved := final_state.approved
      message := final_state.message
      total_amount := final_state.total_amount
      errors := final_state.errors
      warnings := final_state.warnings
      validation_details := final_state.validation_details }
  | .error e =>
    let error_msg := "Error crítico en validación de orden " ++ order_id ++ ": " ++ e
    { status := "error"
      approved := false
      message := error_msg
      total_amount := 0
      errors := [error_msg]
      warnings := []
      validation_details := none }

/-- `validate_order(order_id, customer_id, items)`: the actual graph run
never raises, so the runner always returns `Except.ok`. -/
def validate_order (order_id customer_id : String) (items : List Item) : FinalResult :=
  validate_order_core (fun s => .ok (runGraph s)) order_id customer_id items

/-! ## Derived notions used by the statements -/

/-- The validated lines among a list of per-line classifications, in order. -/
def leftsOf (l : List (Sum ValidatedItem InvalidItem)) : List ValidatedItem :=
  l.filterMap (fun x => match x with | .inl v => some v | .inr _ => none)

/-- The invalid lines among a list of per-line classifications, in order. -/
def rightsOf (l : List (Sum ValidatedItem InvalidItem)) : List InvalidItem :=
  l.filterMap (fun x => match x with | .inl _ => none | .inr iv => some iv)

/-- A line passes all four per-line checks of `validate_order_items`:
known product, positive quantity, quantity within stock, and (when
asserted) price within 0.01 of the catalog price. -/
def linePasses (item : Item) : Bool :=
  match findProduct item.product_id with
  | none => false
  | some product =>
    decide (0 < item.quantity) && decide (item.quantity ≤ product.stock) &&
      (match item.unit_price with
       | none => true
       | some provided_price => decide (|provided_price - product.price| ≤ 0.01))

/-- The catalog-priced line total: catalog unit price × requested quantity
(0 for an unknown product). -/
def catalogLineTotal (item : Item) : ℚ :=
  match findProduct item.product_id with
  | none => 0
  | some product => product.price * (item.quantity : ℚ)

/-- The part of a line that the catalog-priced total depends on: product id
and quantity (the caller-asserted price is excluded). -/
def lineKey (item : Item) : String × Int :=
  (item.product_id, item.quantity)

/-- Catalog-priced total as a function of the line key alone. -/
def catalogKeyTotal (k : String × Int) : ℚ :=
  match findProduct k.1 with
  | none => 0
  | some product => product.price * (k.2 : ℚ)

/-! ## Projection and preservation lemmas -/

theorem catalogLineTotal_eq_key (item : Item) :
    catalogLineTotal item = catalogKeyTotal (lineKey item) := rfl

theorem error_handler_errors (s : OrderState) :
    (error_handler_node s).errors = s.errors := rfl

theorem error_handler_status (s : OrderState) :
    (error_handler_node s).status = "rejected" := rfl

theorem error_handler_approved (s : OrderState) :
    (error_handler_node s).approved = false := rfl

theorem error_handler_total (s : OrderState) :
    (error_handler_node s).total_amount = s.total_amount := rfl

theorem error_handler_items_validation (s : OrderState) :
    (error_handler_node s).items_validation = s.items_validation := rfl

theorem error_handler_credit_validation (s : OrderState) :
    (error_handler_node s).credit_validation = s.credit_validation := rfl

theorem error_handler_details (s : OrderState) :
    (error_handler_node s).validation_details = some
      { customer := s.customer_validation
        items := s.items_validation
        credit := s.credit_validation
        errors := some s.errors
        warnings := some s.warnings
        summary :=
          { order_id := s.order_id
            customer_id := s.customer_id
            total_amount := s.total_amount
            items_count := none
            approved := false
            error_count := some s.errors.length } } := rfl

theorem parse_order_items (s : OrderState) : (parse_order s).items = s.items := rfl

theorem parse_order_order_id (s : OrderState) : (parse_order s).order_id = s.order_id := rfl

theorem parse_order_customer_id (s : OrderState) :
    (parse_order s).customer_id = s.customer_id := rfl

theorem parse_order_customer_validation (s : OrderState) :
    (parse_order s).customer_validation = s.customer_validation := rfl

theorem parse_order_items_validation (s : OrderState) :
    (parse_order s).items_validation = s.items_validation := rfl

theorem parse_order_credit_validation (s : OrderState) :
    (parse_order s).credit_validation = s.credit_validation := rfl

theorem validate_customer_node_items (s : OrderState) :
    (validate_customer_node s).items = s.items := by
  simp only [validate_customer_node]
  split <;> rfl

theorem validate_customer_node_customer_id (s : OrderState) :
    (validate_customer_node s).customer_id = s.customer_id := by
  simp only [validate_customer_node]
  split <;> rfl

theorem validate_customer_node_customer_validation (s : OrderState) :
    (validate_customer_node s).customer_validation =
      some (validate_customer_exists s.customer_id) := by
  simp only [validate_customer_node]
  split <;> rfl

theorem validate_customer_node_items_validation (s : OrderState) :
    (validate_customer_node s).items_validation = s.items_validation := by
  simp only [validate_customer_node]
  split <;> rfl

theorem validate_customer_node_credit_validation (s : OrderState) :
    (validate_customer_node s).credit_validation = s.credit_validation := by
  simp only [validate_customer_node]
  split <;> rfl

theorem validate_customer_node_errors (s : OrderState) :
    (validate_customer_node s).errors =
      if (validate_customer_exists s.customer_id).valid then s.errors
      else s.errors ++ [(validate_customer_exists s.customer_id).message] := by
  simp only [validate_customer_node]
  split <;> simp_all

theorem validate_items_node_total (s : OrderState) :
    (validate_items_node s).total_amount = (validate_order_items s.items).total_amount := by
  simp only [validate_items_node]
  split <;> rfl

theorem validate_items_node_items_validation (s : OrderState) :
    (validate_items_node s).items_validation = some (validate_order_items s.items) := by
  simp only [validate_items_node]
  split <;> rfl

theorem validate_items_node_errors (s : OrderState) :
    (validate_items_node s).errors =
      if (validate_order_items s.items).valid then s.errors
      else s.errors ++ [(validate_order_items s.items).message] ++
        (validate_order_items s.items).invalid_items.map (fun invalid_item =>
          "Item " ++ invalid_item.product_id ++ ": " ++ invalid_item.reason) := by
  simp only [validate_items_node]
  split <;> simp_all

theorem check_credit_node_errors (s : OrderState) :
    (check_credit_node s).errors =
      if (check_customer_credit s.customer_id s.total_amount).has_credit then s.errors
      else s.errors ++ [(check_customer_credit s.customer_id s.total_amount).message] := by
  simp only [check_credit_node]
  split <;> simp_all

/-! ## Routing lemmas -/

theorem route_after_customer (s : OrderState) :
    should_continue_after_customer (validate_customer_node s) =
      if (validate_customer_exists s.customer_id).valid then "validate_items"
      else "error_handler" := by
  unfold should_continue_after_customer
  rw [validate_customer_node_customer_validation]
  rfl

theorem route_after_items (s : OrderState) :
    should_continue_after_items (validate_items_node s) =
      if (validate_order_items s.items).valid then "check_credit"
      else "error_handler" := by
  unfold should_continue_after_items
  rw [validate_items_node_items_validation]
  rfl

/-! ## Path lemmas for the graph run -/

theorem run_parse_fail (s0 : OrderState)
    (h : (parse_order s0).status ≠ "validating") :
    runGraphTrace s0 = (error_handler_node (parse_order s0), ["parse_order", "error_handler"]) := by
  simp [runGraphTrace, h]

theorem run_customer_fail (s0 : OrderState)
    (h1 : (parse_order s0).status = "validating")
    (h2 : (validate_customer_exists (parse_order s0).customer_id).valid = false) :
    runGraphTrace s0 =
      (error_handler_node (validate_customer_node (parse_order s0)),
        ["parse_order", "validate_customer", "error_handler"]) := by
  simp [runGraphTrace, h1, route_after_customer, h2]

theorem run_items_fail (s0 : OrderState)
    (h1 : (parse_order s0).status = "validating")
    (h2 : (validate_customer_exists (parse_order s0).customer_id).valid = true)
    (h3 : (validate_order_items s0.items).valid = false) :
    runGraphTrace s0 =
      (error_handler_node (validate_items_node (validate_customer_node (parse_order s0))),
        ["parse_order", "validate_customer", "validate_items", "error_handler"]) := by
  have hitems : (validate_customer_node (parse_order s0)).items = s0.items := by
    rw [validate_customer_node_items, parse_order_items]
  simp [runGraphTrace, h1, route_after_customer, h2, route_after_items, hitems, h3]

/-! ## Structural lemmas on the item loop -/

theorem processItems_validated (l : List Item) :
    (processItems l).1 = leftsOf (l.map classifyLine) := by
  induction l with
  | nil => rfl
  | cons item rest ih =>
    simp only [processItems, List.map_cons, leftsOf, List.filterMap_cons]
    cases h : classifyLine item <;> simp [h, ih, leftsOf]

theorem processItems_invalid (l : List Item) :
    (processItems l).2.1 = rightsOf (l.map classifyLine) := by
  induction l with
  | nil => rfl
  | cons item rest ih =>
    simp only [processItems, List.map_cons, rightsOf, List.filterMap_cons]
    cases h : classifyLine item <;> simp [h, ih, rightsOf]

theorem processItems_total (l : List Item) :
    (processItems l).2.2 = ((processItems l).1.map ValidatedItem.item_total).sum := by
  induction l with
  | nil => rfl
  | cons item rest ih =>
    simp only [processItems]
    cases h : classifyLine item <;> simp [h, ih]

/-- Every product in the catalog has a positive unit price. -/
theorem findProduct_price_pos (product_id : String) (p : Product)
    (h : findProduct product_id = some p) : 0 < p.price := by
  simp only [findProduct, MOCK_PRODUCTS, List.lookup] at h
  repeat' split at h
  all_goals simp_all
  all_goals (rw [← h]; norm_num)

/-- A line that classifies as validated has a positive line total. -/
theorem classify_inl_total_pos (item : Item) (v : ValidatedItem)
    (h : classifyLine item = .inl v) : 0 < v.item_total := by
  unfold classifyLine at h
  cases hp : findProduct item.product_id with
  | none => simp [hp] at h
  | some p =>
    have hpos := findProduct_price_pos item.product_id p hp
    simp only [hp] at h
    by_cases hq : item.quantity ≤ 0
    · simp [hq] at h
    · simp only [hq, if_false] at h
      by_cases hs : p.stock < item.quantity
      · simp [hs] at h
      · simp only [hs, if_false] at h
        have hqz : 0 < item.quantity := by omega
        have hq' : (0 : ℚ) < (item.quantity : ℚ) := by exact_mod_cast hqz
        cases hu : item.unit_price with
        | none =>
          simp only [hu, Sum.inl.injEq] at h
          subst h
          exact mul_pos hpos hq'
        | some pp =>
          simp only [hu] at h
          by_cases hpr : |pp - p.price| > 0.01
          · simp [hpr] at h
          · simp only [hpr, if_false, Sum.inl.injEq] at h
            subst h
            exact mul_pos hpos hq'

/-- A line passing all four checks classifies as validated, with the
catalog-priced line total. -/
theorem classify_of_passes (item : Item) (h : linePasses item = true) :
    ∃ v, classifyLine item = .inl v ∧ v.item_total = catalogLineTotal item := by
  unfold linePasses at h
  cases hp : findProduct item.product_id with
  | none => simp [hp] at h
  | some p =>
    simp only [hp, Bool.and_eq_true, decide_eq_true_eq] at h
    obtain ⟨⟨hq, hs⟩, hprice⟩ := h
    unfold classifyLine
    simp only [hp]
    rw [if_neg (by omega : ¬ item.quantity ≤ 0),
      if_neg (by omega : ¬ p.stock < item.quantity)]
    cases hu : item.unit_price with
    | none =>
      simp only [hu]
      exact ⟨_, rfl, by simp [catalogLineTotal, hp]⟩
    | some pp =>
      simp only [hu, decide_eq_true_eq] at hprice
      simp only [hu]
      rw [if_neg (not_lt.mpr hprice)]
      exact ⟨_, rfl, by simp [catalogLineTotal, hp]⟩

theorem processItems_all_pass (l : List Item)
    (h : ∀ item ∈ l, linePasses item = true) :
    (processItems l).2.1 = [] ∧ (processItems l).1.length = l.length ∧
      (processItems l).2.2 = (l.map catalogLineTotal).sum := by
  induction l with
  | nil => exact ⟨rfl, rfl, rfl⟩
  | cons item rest ih =>
    obtain ⟨v, hv, ht⟩ := classify_of_passes item (h item (by simp))
    obtain ⟨ih1, ih2, ih3⟩ := ih (fun it hit => h it (by simp [hit]))
    simp [processItems, hv, ih1, ih2, ih3, ht]

theorem validate_order_items_total (items : List Item) :
    (validate_order_items items).total_amount = (processItems items).2.2 := by
  by_cases h : items = []
  · subst h; rfl
  · simp [validate_order_items, h]

theorem validate_order_items_validated (items : List Item) (h : items ≠ []) :
    (validate_order_items items).validated_items = (processItems items).1 := by
  simp [validate_order_items, h]

theorem validate_order_items_invalid (items : List Item) (h : items ≠ []) :
    (validate_order_items items).invalid_items = (processItems items).2.1 := by
  simp [validate_order_items, h]

theorem validate_order_items_total_eq_sum (items : List Item) :
    (validate_order_items items).total_amount =
      ((validate_order_items items).validated_items.map ValidatedItem.item_total).sum := by
  by_cases h : items = []
  · subst h; rfl
  · rw [validate_order_items_total, validate_order_items_validated items h,
      processItems_total]

theorem mem_validated_total_pos (items : List Item) (v : ValidatedItem)
    (hv : v ∈ (validate_order_items items).validated_items) : 0 < v.item_total := by
  by_cases h : items = []
  · subst h; simp [validate_order_items] at hv
  · rw [validate_order_items_validated items h, processItems_validated] at hv
    simp only [leftsOf, List.mem_filterMap, List.mem_map] at hv
    obtain ⟨x, ⟨item, _, hx⟩, hmatch⟩ := hv
    cases x with
    | inl w =>
      cases hmatch
      exact classify_inl_total_pos item v (hx ▸ rfl)
    | inr _ => cases hmatch

theorem valid_iff_aux (items : List Item) :
    (validate_order_items items).valid = true ↔
      ((validate_order_items items).invalid_items = [] ∧
        (validate_order_items items).validated_items ≠ []) := by
  by_cases h : items = []
  · subst h; simp [validate_order_items]
  · simp [validate_order_items, h, List.isEmpty_iff, Bool.and_eq_true]

/-! ## C3 -/

/-- C3: for every input item list, the item-validation verdict's `valid`
flag is true iff the invalid-items sequence is empty and the
validated-items sequence is non-empty (so an empty item list, or a list in
which every line is rejected, always yields `valid = false`). -/
theorem items_verdict_valid_iff (items : List Item) :
    (validate_order_items items).valid = true ↔
      ((validate_order_items items).invalid_items = [] ∧
        (validate_order_items items).validated_items ≠ []) :=
  valid_iff_aux items

/-! ## C4 -/

/-- C4: when every line passes validation, the computed `total_amount` is
the sum over the lines of catalog unit price × requested quantity; the
caller-asserted `unit_price` never contributes, so two orders identical up
to their (in-tolerance) asserted prices produce the same total. -/
theorem total_amount_from_catalog (items other : List Item)
    (hpass : ∀ item ∈ items, linePasses item = true)
    (hpass2 : ∀ item ∈ other, linePasses item = true)
    (hkey : items.map lineKey = other.map lineKey) :
    (validate_order_items items).total_amount = (items.map catalogLineTotal).sum ∧
    (validate_order_items items).total_amount =
      (validate_order_items other).total_amount := by
  have hmain : (validate_order_items items).total_amount =
      (items.map catalogLineTotal).sum := by
    rw [validate_order_items_total]
    exact (processItems_all_pass items hpass).2.2
  have hmain2 : (validate_order_items other).total_amount =
      (other.map catalogLineTotal).sum := by
    rw [validate_order_items_total]
    exact (processItems_all_pass other hpass2).2.2
  have hfun : ∀ l : List Item, l.map catalogLineTotal = (l.map lineKey).map catalogKeyTotal := by
    intro l
    rw [List.map_map]
    rfl
  refine ⟨hmain, ?_⟩
  rw [hmain, hmain2, hfun items, hfun other, hkey]

/-- Witness for C4 at two concrete one-line orders differing only in their
asserted price, both within 0.01 of the catalog price. -/
theorem total_amount_from_catalog_witness :
    (validate_order_items [⟨"PROD001", 2, some 1200⟩]).total_amount =
      ([(⟨"PROD001", 2, some 1200⟩ : Item)].map catalogLineTotal).sum ∧
    (validate_order_items [⟨"PROD001", 2, some 1200⟩]).total_amount =
      (validate_order_items [⟨"PROD001", 2, some (1200 + 1/200)⟩]).total_amount :=
  total_amount_from_catalog [⟨"PROD001", 2, some 1200⟩]
    [⟨"PROD001", 2, some (1200 + 1/200)⟩]
    (by
      simp only [List.mem_singleton, forall_eq]
      norm_num [linePasses, findProduct, MOCK_PRODUCTS, List.lookup, abs_le])
    (by
      simp only [List.mem_singleton, forall_eq]
      norm_num [linePasses, findProduct, MOCK_PRODUCTS, List.lookup, abs_le])
    rfl

/-! ## C5 -/

/-- C5: for a customer found in the catalog, `has_credit = true` iff
`credit_limit − current_balance ≥ order_amount`, inclusively: available
credit exactly equal to the required amount is sufficient, available
credit equal to required − 0.01 is insufficient, and the insufficiency
message states the deficit `required − available`. -/
theorem credit_inclusive_boundary (customer_id : String) (c : Customer) (amount : ℚ)
    (h : findCustomer customer_id = some c) :
    ((check_customer_credit customer_id amount).has_credit = true ↔
      c.credit_limit - c.current_balance ≥ amount) ∧
    (c.credit_limit - c.current_balance = amount →
      (check_customer_credit customer_id amount).has_credit = true) ∧
    (c.credit_limit - c.current_balance = amount - 0.01 →
      (check_customer_credit customer_id amount).has_credit = false) ∧
    ((check_customer_credit customer_id amount).has_credit = false →
      (check_customer_credit customer_id amount).message =
        "Crédito insuficiente. Disponible: " ++ money (c.credit_limit - c.current_balance) ++
          ", Requerido: " ++ money amount ++ ", Falta: " ++
          money (amount - (c.credit_limit - c.current_balance))) := by
  by_cases hc : c.credit_limit - c.current_balance ≥ amount
  · refine ⟨?_, ?_, ?_, ?_⟩ <;> simp [check_customer_credit, h, hc]
    · intro habs
      rw [habs] at hc
      linarith
  · refine ⟨?_, ?_, ?_, ?_⟩ <;> simp [check_customer_credit, h, hc]
    · intro habs
      exact absurd (ge_of_eq habs) hc

/-- Witness for C5 at customer CUST002 (limit 5000, balance 4500) and the
boundary amount 500. -/
theorem credit_inclusive_boundary_witness :
    (check_customer_credit "CUST002" 500).has_credit = true :=
  (credit_inclusive_boundary "CUST002"
    ⟨"CUST002", "TechStart Inc", "info@techstart.com", "active", 5000, 4500⟩ 500
    rfl).1.mpr (by norm_num)

/-! ## C6 -/

/-- C6: every line is classified into exactly one of validated/invalid in
input order (the verdict's two sequences are the two projections of the
per-line classification applied to the lines in order), and the per-line
classification applies the four rules in the fixed order product-exists,
quantity > 0, quantity ≤ stock, price within 0.01, the first failing rule
determining the single recorded reason. -/
theorem line_classification (items : List Item) (hne : items ≠ []) :
    (validate_order_items items).validated_items = leftsOf (items.map classifyLine) ∧
    (validate_order_items items).invalid_items = rightsOf (items.map classifyLine) ∧
    (∀ item : Item,
      (findProduct item.product_id = none →
        classifyLine item = .inr ⟨item.product_id, item.quantity, none, none, none,
          "Producto " ++ item.product_id ++ " no existe en el catálogo"⟩) ∧
      (∀ p, findProduct item.product_id = some p → item.quantity ≤ 0 →
        classifyLine item = .inr ⟨item.product_id, item.quantity, none, none, none,
          "Cantidad debe ser mayor a 0"⟩) ∧
      (∀ p, findProduct item.product_id = some p → 0 < item.quantity →
        p.stock < item.quantity →
        classifyLine item = .inr ⟨item.product_id, item.quantity, some p.stock, none, none,
          "Stock insuficiente. Solicitado: " ++ toString item.quantity ++
            ", Disponible: " ++ toString p.stock⟩) ∧
      (∀ p pp, findProduct item.product_id = some p → 0 < item.quantity →
        item.quantity ≤ p.stock → item.unit_price = some pp → |pp - p.price| > 0.01 →
        classifyLine item = .inr ⟨item.product_id, item.quantity, none, some pp, some p.price,
          "Precio incorrecto. Proporcionado: " ++ money pp ++ ", Actual: " ++ money p.price⟩) ∧
      (∀ p, findProduct item.product_id = some p → 0 < item.quantity →
        item.quantity ≤ p.stock →
        (∀ pp, item.unit_price = some pp → |pp - p.price| ≤ 0.01) →
        classifyLine item = .inl ⟨item.product_id, p.name, item.quantity, p.price,
          p.price * (item.quantity : ℚ), p.category⟩)) := by
  refine ⟨?_, ?_, ?_⟩
  · rw [validate_order_items_validated items hne, processItems_validated]
  · rw [validate_order_items_invalid items hne, processItems_invalid]
  · intro item
    refine ⟨?_, ?_, ?_, ?_, ?_⟩
    · intro hp
      simp [classifyLine, hp]
    · intro p hp hq
      simp [classifyLine, hp, hq]
    · intro p hp hq hs
      unfold classifyLine
      simp only [hp]
      rw [if_neg (by omega), if_pos hs]
    · intro p pp hp hq hs hu hpr
      unfold classifyLine
      simp only [hp, hu]
      rw [if_neg (by omega), if_neg (by omega)]
      simp [hpr]
    · intro p hp hq hs hpr
      unfold classifyLine
      simp only [hp]
      rw [if_neg (by omega), if_neg (by omega)]
      cases hu : item.unit_price with
      | none => simp
      | some pp => simp [if_neg (not_lt.mpr (hpr pp hu))]

/-- Witness for C6 at a concrete two-line order with one unknown product. -/
theorem line_classification_witness :
    (validate_order_items [⟨"PROD001", 1, none⟩, ⟨"PROD999", 1, none⟩]).invalid_items =
      rightsOf (([⟨"PROD001", 1, none⟩, ⟨"PROD999", 1, none⟩] : List Item).map classifyLine) :=
  (line_classification [⟨"PROD001", 1, none⟩, ⟨"PROD999", 1, none⟩] (by simp)).2.1

/-! ## C8 -/

/-- C8: the stock rule compares each line quantity with the catalog stock
in isolation; quantities of repeated product ids are never summed, so an
order whose lines individually fit the stock is fully valid even when the
combined quantity of some product exceeds that product's stock. -/
theorem stock_checked_per_line (items : List Item) (hne : items ≠ [])
    (hpass : ∀ item ∈ items, linePasses item = true)
    (_hover : ∃ product_id p, findProduct product_id = some p ∧
      p.stock < (((items.filter (fun item => item.product_id = product_id)).map
        Item.quantity).sum)) :
    (validate_order_items items).valid = true ∧
    (validate_order_items items).invalid_items = [] := by
  obtain ⟨hinv, hlen, _⟩ := processItems_all_pass items hpass
  have hinv' : (validate_order_items items).invalid_items = [] := by
    rw [validate_order_items_invalid items hne, hinv]
  refine ⟨?_, hinv'⟩
  rw [valid_iff_aux]
  refine ⟨hinv', ?_⟩
  rw [validate_order_items_validated items hne]
  intro habs
  apply hne
  have := hlen
  rw [habs] at this
  exact List.length_eq_zero.mp this.symm

/-- Witness for C8: two lines of PROD004 (stock 30) with quantity 20 each;
each line fits the stock, the combined quantity 40 does not. -/
theorem stock_checked_per_line_witness :
    (validate_order_items [⟨"PROD004", 20, none⟩, ⟨"PROD004", 20, none⟩]).valid = true ∧
    (validate_order_items [⟨"PROD004", 20, none⟩, ⟨"PROD004", 20, none⟩]).invalid_items = [] :=
  stock_checked_per_line [⟨"PROD004", 20, none⟩, ⟨"PROD004", 20, none⟩] (by simp)
    (by decide)
    ⟨"PROD004", ⟨"PROD004", "Monitor 27 inch", 350, 30, "electronics"⟩, rfl, by decide⟩

/-! ## Further workflow lemmas -/

theorem validate_items_node_customer_id (s : OrderState) :
    (validate_items_node s).customer_id = s.customer_id := by
  simp only [validate_items_node]
  split <;> rfl

theorem validate_items_node_items (s : OrderState) :
    (validate_items_node s).items = s.items := by
  simp only [validate_items_node]
  split <;> rfl

theorem check_credit_node_credit_validation (s : OrderState) :
    (check_credit_node s).credit_validation =
      some (check_customer_credit s.customer_id s.total_amount) := by
  simp only [check_credit_node]
  split <;> rfl

theorem route_after_credit (s : OrderState) :
    should_continue_after_credit (check_credit_node s) =
      if (check_customer_credit s.customer_id s.total_amount).has_credit then "process_order"
      else "error_handler" := by
  unfold should_continue_after_credit
  rw [check_credit_node_credit_validation]
  rfl

theorem run_credit_fail (s0 : OrderState)
    (h1 : (parse_order s0).status = "validating")
    (h2 : (validate_customer_exists (parse_order s0).customer_id).valid = true)
    (h3 : (validate_order_items s0.items).valid = true)
    (h4 : (check_customer_credit s0.customer_id
      (validate_order_items s0.items).total_amount).has_credit = false) :
    runGraphTrace s0 =
      (error_handler_node (check_credit_node (validate_items_node
        (validate_customer_node (parse_order s0)))),
        ["parse_order", "validate_customer", "validate_items", "check_credit",
          "error_handler"]) := by
  have hitems : (validate_customer_node (parse_order s0)).items = s0.items := by
    rw [validate_customer_node_items, parse_order_items]
  have hcid : (validate_items_node (validate_customer_node (parse_order s0))).customer_id =
      s0.customer_id := by
    rw [validate_items_node_customer_id, validate_customer_node_customer_id,
      parse_order_customer_id]
  have htot : (validate_items_node (validate_customer_node (parse_order s0))).total_amount =
      (validate_order_items s0.items).total_amount := by
    rw [validate_items_node_total, hitems]
  simp [runGraphTrace, h1, route_after_customer, h2, route_after_items, hitems, h3,
    route_after_credit, hcid, htot, h4]

theorem run_approved (s0 : OrderState)
    (h1 : (parse_order s0).status = "validating")
    (h2 : (validate_customer_exists (parse_order s0).customer_id).valid = true)
    (h3 : (validate_order_items s0.items).valid = true)
    (h4 : (check_customer_credit s0.customer_id
      (validate_order_items s0.items).total_amount).has_credit = true) :
    runGraphTrace s0 =
      (process_order_node (check_credit_node (validate_items_node
        (validate_customer_node (parse_order s0)))),
        ["parse_order", "validate_customer", "validate_items", "check_credit",
          "process_order"]) := by
  have hitems : (validate_customer_node (parse_order s0)).items = s0.items := by
    rw [validate_customer_node_items, parse_order_items]
  have hcid : (validate_items_node (validate_customer_node (parse_order s0))).customer_id =
      s0.customer_id := by
    rw [validate_items_node_customer_id, validate_customer_node_customer_id,
      parse_order_customer_id]
  have htot : (validate_items_node (validate_customer_node (parse_order s0))).total_amount =
      (validate_order_items s0.items).total_amount := by
    rw [validate_items_node_total, hitems]
  simp [runGraphTrace, h1, route_after_customer, h2, route_after_items, hitems, h3,
    route_after_credit, hcid, htot, h4]

theorem parse_ok (order_id customer_id : String) (items : List Item)
    (h1 : order_id ≠ "") (h2 : customer_id ≠ "") (h3 : items ≠ []) :
    (parse_order (initialState order_id customer_id items)).status = "validating" ∧
    (parse_order (initialState order_id customer_id items)).errors = [] := by
  constructor <;> simp [parse_order, initialState, h1, h2, h3]

theorem parse_not_validating_errors (s : OrderState)
    (h : (parse_order s).status ≠ "validating") : (parse_order s).errors ≠ [] := by
  intro hE
  apply h
  have hst : (parse_order s).status =
      if (parse_order s).errors = [] then "validating" else "error" := rfl
  rw [hst, if_pos hE]

theorem validate_order_fields (order_id customer_id : String) (items : List Item) :
    (validate_order order_id customer_id items).status =
      (runGraph (initialState order_id customer_id items)).status ∧
    (validate_order order_id customer_id items).errors =
      (runGraph (initialState order_id customer_id items)).errors ∧
    (validate_order order_id customer_id items).approved =
      (runGraph (initialState order_id customer_id items)).approved ∧
    (validate_order order_id customer_id items).total_amount =
      (runGraph (initialState order_id customer_id items)).total_amount :=
  ⟨rfl, rfl, rfl, rfl⟩

/-! ## C1 -/

/-- C1: an Order Request with an empty `order_id`, an empty `customer_id`,
or an empty item list yields a Final Result with status `"rejected"` (not
`"error"`), `approved = false` and a non-empty errors list; the Parse step
does set the Context status to `"error"`, but the reject-handling node
unconditionally overwrites it with `"rejected"`, so `"error"` is never
observable in the Final Result. -/
theorem structural_reject (order_id customer_id : String) (items : List Item)
    (h : order_id = "" ∨ customer_id = "" ∨ items = []) :
    (validate_order order_id customer_id items).status = "rejected" ∧
    (validate_order order_id customer_id items).approved = false ∧
    (validate_order order_id customer_id items).errors ≠ [] ∧
    (parse_order (initialState order_id customer_id items)).status = "error" := by
  have hE : (parse_order (initialState order_id customer_id items)).errors ≠ [] := by
    rcases h with h | h | h <;>
      simp [parse_order, initialState, h, List.append_eq_nil]
  have hst : (parse_order (initialState order_id customer_id items)).status = "error" := by
    have hs : (parse_order (initialState order_id customer_id items)).status =
        if (parse_order (initialState order_id customer_id items)).errors = []
        then "validating" else "error" := rfl
    rw [hs, if_neg hE]
  have hrun := run_parse_fail (initialState order_id customer_id items)
    (by rw [hst]; decide)
  obtain ⟨f1, f2, f3, _⟩ := validate_order_fields order_id customer_id items
  refine ⟨?_, ?_, ?_, hst⟩
  · rw [f1]
    simp [runGraph, hrun, error_handler_status]
  · rw [f3]
    simp [runGraph, hrun, error_handler_approved]
  · rw [f2]
    simpa [runGraph, hrun, error_handler_errors] using hE

/-- Witness for C1: an order with an empty order id. -/
theorem structural_reject_witness :
    (validate_order "" "CUST001" [⟨"PROD001", 1, none⟩]).status = "rejected" :=
  (structural_reject "" "CUST001" [⟨"PROD001", 1, none⟩] (Or.inl rfl)).1

/-! ## C2 -/

/-- C2: when the customer-eligibility verdict is invalid, the item and
credit checks are never invoked — the run visits exactly parse, customer
and reject handling, the items/credit verdict slots stay unset (rendered
as empty defaults in `validation_details`), and the errors list carries
only the customer verdict's message. -/
theorem customer_short_circuit (order_id customer_id : String) (items : List Item)
    (h1 : order_id ≠ "") (h2 : customer_id ≠ "") (h3 : items ≠ [])
    (hinv : (validate_customer_exists customer_id).valid = false) :
    (runGraphTrace (initialState order_id customer_id items)).2 =
      ["parse_order", "validate_customer", "error_handler"] ∧
    "validate_items" ∉ (runGraphTrace (initialState order_id customer_id items)).2 ∧
    "check_credit" ∉ (runGraphTrace (initialState order_id customer_id items)).2 ∧
    (runGraph (initialState order_id customer_id items)).items_validation = none ∧
    (runGraph (initialState order_id customer_id items)).credit_validation = none ∧
    (∃ d, (runGraph (initialState order_id customer_id items)).validation_details = some d ∧
      d.items = none ∧ d.credit = none) ∧
    (runGraph (initialState order_id customer_id items)).errors =
      [(validate_customer_exists customer_id).message] := by
  obtain ⟨hp1, hp2⟩ := parse_ok order_id customer_id items h1 h2 h3
  have hcid : (parse_order (initialState order_id customer_id items)).customer_id =
      customer_id := by
    rw [parse_order_customer_id]
    rfl
  have hrun := run_customer_fail (initialState order_id customer_id items) hp1
    (by rw [hcid]; exact hinv)
  have hstate : runGraph (initialState order_id customer_id items) =
      error_handler_node (validate_customer_node
        (parse_order (initialState order_id customer_id items))) := by
    simp only [runGraph, hrun]
  have hiv : (runGraph (initialState order_id customer_id items)).items_validation = none := by
    rw [hstate, error_handler_items_validation, validate_customer_node_items_validation,
      parse_order_items_validation]
    rfl
  have hcv : (runGraph (initialState order_id customer_id items)).credit_validation = none := by
    rw [hstate, error_handler_credit_validation, validate_customer_node_credit_validation,
      parse_order_credit_validation]
    rfl
  have herr : (runGraph (initialState order_id customer_id items)).errors =
      [(validate_customer_exists customer_id).message] := by
    rw [hstate, error_handler_errors, validate_customer_node_errors, hcid, hp2]
    simp [hinv]
  refine ⟨?_, ?_, ?_, hiv, hcv, ?_, herr⟩
  · rw [hrun]
  · rw [hrun]
    simp
  · rw [hrun]
    simp
  · refine ⟨_, by rw [hstate, error_handler_details], ?_, ?_⟩
    · show (validate_customer_node
        (parse_order (initialState order_id customer_id items))).items_validation = none
      rw [validate_customer_node_items_validation, parse_order_items_validation]
      rfl
    · show (validate_customer_node
        (parse_order (initialState order_id customer_id items))).credit_validation = none
      rw [validate_customer_node_credit_validation, parse_order_credit_validation]
      rfl

/-- Witness for C2 at the inactive customer CUST003. -/
theorem customer_short_circuit_witness :
    (runGraphTrace (initialState "ORD-C" "CUST003" [⟨"PROD001", 1, none⟩])).2 =
      ["parse_order", "validate_customer", "error_handler"] :=
  (customer_short_circuit "ORD-C" "CUST003" [⟨"PROD001", 1, none⟩]
    (by decide) (by decide) (by simp) rfl).1

/-! ## C7 -/

/-- C7: any failure the graph runner raises is caught at the
`validate_order` boundary and converted into a Final Result with status
`"error"`, `approved = false`, exactly one synthetic error message
embedding the failure description, zero total and an empty detail record;
`validate_order_core` is a total function, so the caller always receives a
well-formed Final Result and no exception propagates. -/
theorem boundary_error_result (run : OrderState → Except String OrderState)
    (order_id customer_id : String) (items : List Item) (e : String)
    (h : run (initialState order_id customer_id items) = .error e) :
    validate_order_core run order_id customer_id items =
      { status := "error", approved := false,
        message := "Error crítico en validación de orden " ++ order_id ++ ": " ++ e,
        total_amount := 0,
        errors := ["Error crítico en validación de orden " ++ order_id ++ ": " ++ e],
        warnings := [], validation_details := none } := by
  simp [validate_order_core, h]

/-- Witness for C7 with a runner that always fails. -/
theorem boundary_error_result_witness :
    validate_order_core (fun _ => .error "fallo interno") "ORD-X" "CUST001" [] =
      { status := "error", approved := false,
        message := "Error crítico en validación de orden " ++ "ORD-X" ++ ": " ++ "fallo interno",
        total_amount := 0,
        errors := ["Error crítico en validación de orden " ++ "ORD-X" ++ ": " ++ "fallo interno"],
        warnings := [], validation_details := none } :=
  boundary_error_result (fun _ => .error "fallo interno") "ORD-X" "CUST001" []
    "fallo interno" rfl

/-! ## C9 -/

/-- C9: when the item verdict is invalid but at least one line was
validated, the workflow still copies the verdict total into the Context
before rejecting, so the rejected Final Result reports a positive
`total_amount` equal to the sum of catalog price × quantity over the
validated lines only. -/
theorem partial_total_on_reject (order_id customer_id : String) (items : List Item)
    (h1 : order_id ≠ "") (h2 : customer_id ≠ "") (h3 : items ≠ [])
    (hcust : (validate_customer_exists customer_id).valid = true)
    (hinv : (validate_order_items items).valid = false)
    (hsome : (validate_order_items items).validated_items ≠ []) :
    (validate_order order_id customer_id items).status = "rejected" ∧
    (validate_order order_id customer_id items).total_amount =
      (validate_order_items items).total_amount ∧
    (validate_order order_id customer_id items).total_amount =
      ((validate_order_items items).validated_items.map ValidatedItem.item_total).sum ∧
    0 < (validate_order order_id customer_id items).total_amount := by
  obtain ⟨hp1, hp2⟩ := parse_ok order_id customer_id items h1 h2 h3
  have hcid : (parse_order (initialState order_id customer_id items)).customer_id =
      customer_id := by
    rw [parse_order_customer_id]
    rfl
  have hrun := run_items_fail (initialState order_id customer_id items) hp1
    (by rw [hcid]; exact hcust) hinv
  have hstate : runGraph (initialState order_id customer_id items) =
      error_handler_node (validate_items_node (validate_customer_node
        (parse_order (initialState order_id customer_id items)))) := by
    simp only [runGraph, hrun]
  obtain ⟨f1, f2, f3, f4⟩ := validate_order_fields order_id customer_id items
  have htot : (validate_order order_id customer_id items).total_amount =
      (validate_order_items items).total_amount := by
    rw [f4, hstate, error_handler_total, validate_items_node_total,
      validate_customer_node_items, parse_order_items]
    rfl
  have hsum := validate_order_items_total_eq_sum items
  have hpos : 0 < ((validate_order_items items).validated_items.map
      ValidatedItem.item_total).sum := by
    apply List.sum_pos
    · intro x hx
      simp only [List.mem_map] at hx
      obtain ⟨v, hv, rfl⟩ := hx
      exact mem_validated_total_pos items v hv
    · simpa using hsome
  refine ⟨?_, htot, ?_, ?_⟩
  · rw [f1, hstate, error_handler_status]
  · rw [htot, hsum]
  · rw [htot, hsum]
    exact hpos

/-- Witness for C9: a valid line for PROD001 together with an unknown
product line. -/
theorem partial_total_on_reject_witness :
    (validate_order "ORD-9" "CUST001"
      [⟨"PROD001", 1, none⟩, ⟨"PROD999", 1, none⟩]).status = "rejected" :=
  (partial_total_on_reject "ORD-9" "CUST001" [⟨"PROD001", 1, none⟩, ⟨"PROD999", 1, none⟩]
    (by decide) (by decide) (by simp) rfl rfl (by decide)).1

/-! ## C10 -/

/-- C10: whenever the Final Result has status `"rejected"`, its errors
list is non-empty — every path into the reject-handling node first appends
at least one error string, and the reject handler never removes entries. -/
theorem rejected_errors_nonempty (order_id customer_id : String) (items : List Item)
    (h : (validate_order order_id customer_id items).status = "rejected") :
    (validate_order order_id customer_id items).errors ≠ [] := by
  obtain ⟨f1, f2, _, _⟩ := validate_order_fields order_id customer_id items
  rw [f1] at h
  rw [f2]
  by_cases c1 : (parse_order (initialState order_id customer_id items)).status = "validating"
  · by_cases c2 : (validate_customer_exists
        (parse_order (initialState order_id customer_id items)).customer_id).valid = true
    · by_cases c3 : (validate_order_items (initialState order_id customer_id items).items).valid
          = true
      · by_cases c4 : (check_customer_credit (initialState order_id customer_id items).customer_id
            (validate_order_items (initialState order_id customer_id items).items).total_amount
            ).has_credit = true
        · have hrun := run_approved (initialState order_id customer_id items) c1 c2 c3 c4
          simp only [runGraph, hrun] at h
          simp [process_order_node] at h
        · have c4f : (check_customer_credit (initialState order_id customer_id items).customer_id
              (validate_order_items (initialState order_id customer_id items).items).total_amount
              ).has_credit = false := by
            simpa using c4
          have hrun := run_credit_fail (initialState order_id customer_id items) c1 c2 c3 c4f
          have hstate : runGraph (initialState order_id customer_id items) =
              error_handler_node (check_credit_node (validate_items_node (validate_customer_node
                (parse_order (initialState order_id customer_id items))))) := by
            simp only [runGraph, hrun]
          rw [hstate, error_handler_errors, check_credit_node_errors]
          have hcid : (validate_items_node (validate_customer_node
              (parse_order (initialState order_id customer_id items)))).customer_id =
              (initialState order_id customer_id items).customer_id := by
            rw [validate_items_node_customer_id, validate_customer_node_customer_id,
              parse_order_customer_id]
          have htot : (validate_items_node (validate_customer_node
              (parse_order (initialState order_id customer_id items)))).total_amount =
              (validate_order_items (initialState order_id customer_id items).items
                ).total_amount := by
            rw [validate_items_node_total, validate_customer_node_items, parse_order_items]
          rw [hcid, htot, c4f]
          simp
      · have c3f : (validate_order_items (initialState order_id customer_id items).items).valid
            = false := by
          simpa using c3
        have hrun := run_items_fail (initialState order_id customer_id items) c1 c2 c3f
        have hstate : runGraph (initialState order_id customer_id items) =
            error_handler_node (validate_items_node (validate_customer_node
              (parse_order (initialState order_id customer_id items)))) := by
          simp only [runGraph, hrun]
        rw [hstate, error_handler_errors, validate_items_node_errors]
        have hitems : (validate_customer_node
            (parse_order (initialState order_id customer_id items))).items =
            (initialState order_id customer_id items).items := by
          rw [validate_customer_node_items, parse_order_items]
        rw [hitems, c3f]
        simp
    · have c2f : (validate_customer_exists
          (parse_order (initialState order_id customer_id items)).customer_id).valid = false := by
        simpa using c2
      have hrun := run_customer_fail (initialState order_id customer_id items) c1 c2f
      have hstate : runGraph (initialState order_id customer_id items) =
          error_handler_node (validate_customer_node
            (parse_order (initialState order_id customer_id items))) := by
        simp only [runGraph, hrun]
      rw [hstate, error_handler_errors, validate_customer_node_errors, c2f]
      simp
  · have hrun := run_parse_fail (initialState order_id customer_id items) c1
    have hstate : runGraph (initialState order_id customer_id items) =
        error_handler_node (parse_order (initialState order_id customer_id items)) := by
      simp only [runGraph, hrun]
    rw [hstate, error_handler_errors]
    exact parse_not_validating_errors _ c1

/-- Witness for C10: a structurally empty order that is rejected. -/
theorem rejected_errors_nonempty_witness :
    (validate_order "ORD-10" "" []).errors ≠ [] :=
  rejected_errors_nonempty "ORD-10" "" [] rfl

end OrderValidation
